import Mathlib

/-!
Verification development for the `csas-pohoda` statement-sync script
(`src/main.py`).  The script is a sequential pipeline: load a dotenv-style
environment file, invoke an external statement downloader, invoke an external
statement importer, and merge their JSON reports into one final report with a
process exit code.

The embedding below translates the Python source into executable Lean
definitions.  External process executions are modelled by explicit records of
their observable outcomes (`ProcResult`, `ImporterWorld`); `json.loads` is
modelled by an executable recursive-descent parser `jsonParse` over the JSON
grammar (strings with the standard single-character escapes; `\uXXXX` escapes
and the non-standard `NaN`/`Infinity` literals are not modelled, which only
narrows the set of inputs the model accepts as JSON).
-/

/-- JSON values as produced by `json.loads`.  Numbers keep their raw lexeme,
which is enough to decide Python truthiness and dictionary shapes; object
fields are kept in insertion order with unique keys (later duplicate keys
overwrite earlier ones in place, as Python `dict` does). -/
inductive Json where
  | null : Json
  | bool (b : Bool) : Json
  | num (raw : String) : Json
  | str (s : String) : Json
  | arr (xs : List Json) : Json
  | obj (fields : List (String × Json)) : Json

/-- Dictionary lookup on an object's field list (Python `dict.get` without a
default): the value of the first field whose key matches. -/
def objLookup (fs : List (String × Json)) (k : String) : Option Json :=
  (fs.find? (fun kv => kv.1 == k)).map (fun kv => kv.2)

/-- Dictionary insertion (Python `d[k] = v`): overwrite in place if the key is
present, otherwise append at the end, preserving insertion order. -/
def objInsert (fs : List (String × Json)) (k : String) (v : Json) :
    List (String × Json) :=
  if fs.any (fun kv => kv.1 == k) then
    fs.map (fun kv => if kv.1 == k then (kv.1, v) else kv)
  else fs ++ [(k, v)]

/-- JSON insignificant whitespace. -/
def isJsonWs (c : Char) : Bool :=
  c == ' ' || c == '\t' || c == '\n' || c == '\r'

/-- Skip insignificant whitespace. -/
def skipWs (cs : List Char) : List Char :=
  cs.dropWhile isJsonWs

/-- Resolution of a single-character string escape (`\uXXXX` is not modelled
and makes the parse fail). -/
def unescape (c : Char) : Option Char :=
  if c = '"' then some '"'
  else if c = '\\' then some '\\'
  else if c = '/' then some '/'
  else if c = 'b' then some '\x08'
  else if c = 'f' then some '\x0c'
  else if c = 'n' then some '\n'
  else if c = 'r' then some '\r'
  else if c = 't' then some '\t'
  else none

/-- Parse the body of a JSON string after its opening quote, returning its
characters and the remaining input after the closing quote. -/
def parseStrBody : List Char → Option (List Char × List Char)
  | [] => none
  | c :: rest =>
    if c = '"' then some ([], rest)
    else if c = '\\' then
      match rest with
      | [] => none
      | e :: rest2 =>
        match unescape e with
        | none => none
        | some u =>
          match parseStrBody rest2 with
          | none => none
          | some (s, r) => some (u :: s, r)
    else
      match parseStrBody rest with
      | none => none
      | some (s, r) => some (c :: s, r)

/-- Consume an expected literal character sequence. -/
def stripLit (lit cs : List Char) : Option (List Char) :=
  if cs.take lit.length = lit then some (cs.drop lit.length) else none

/-- Parse an optional fraction part (`.` followed by at least one digit). -/
def parseFrac (cs : List Char) : Option (List Char × List Char) :=
  match cs with
  | '.' :: r =>
    let ds := r.takeWhile Char.isDigit
    if ds.isEmpty then none else some ('.' :: ds, r.dropWhile Char.isDigit)
  | _ => some ([], cs)

/-- Parse an optional exponent part (`e`/`E`, optional sign, digits). -/
def parseExp (cs : List Char) : Option (List Char × List Char) :=
  match cs with
  | c :: r =>
    if c = 'e' ∨ c = 'E' then
      let (sg, r2) :=
        match r with
        | s :: r2 =>
          if s = '+' ∨ s = '-' then (([s] : List Char), r2) else (([] : List Char), r)
        | [] => (([] : List Char), r)
      let ds := r2.takeWhile Char.isDigit
      if ds.isEmpty then none
      else some (c :: (sg ++ ds), r2.dropWhile Char.isDigit)
    else some ([], cs)
  | [] => some ([], cs)

/-- Assemble a number lexeme after its integer part. -/
def afterInt (lexeme cs : List Char) : Option (Json × List Char) :=
  match parseFrac cs with
  | none => none
  | some (fp, cs2) =>
    match parseExp cs2 with
    | none => none
    | some (ep, cs3) => some (.num (String.mk (lexeme ++ fp ++ ep)), cs3)

/-- Parse a JSON number (no leading zeros, optional fraction and exponent). -/
def parseNum (cs : List Char) : Option (Json × List Char) :=
  let (sgn, cs1) :=
    match cs with
    | '-' :: r => ((['-'] : List Char), r)
    | _ => (([] : List Char), cs)
  match cs1 with
  | [] => none
  | c :: r =>
    if c = '0' then afterInt (sgn ++ ['0']) r
    else if c.isDigit then
      afterInt (sgn ++ (c :: r.takeWhile Char.isDigit)) (r.dropWhile Char.isDigit)
    else none

mutual

/-- Parse one JSON value, fuel-bounded. -/
def parseVal : Nat → List Char → Option (Json × List Char)
  | 0, _ => none
  | fuel+1, cs =>
    match skipWs cs with
    | [] => none
    | c :: rest =>
      if c = '\x7b' then
        match skipWs rest with
        | '\x7d' :: r2 => some (.obj [], r2)
        | cs2 => parseMembers fuel cs2 []
      else if c = '[' then
        match skipWs rest with
        | ']' :: r2 => some (.arr [], r2)
        | cs2 => parseItems fuel cs2 []
      else if c = '"' then
        match parseStrBody rest with
        | none => none
        | some (s, r) => some (.str (String.mk s), r)
      else if c = 't' then
        match stripLit ['r', 'u', 'e'] rest with
        | none => none
        | some r => some (.bool true, r)
      else if c = 'f' then
        match stripLit ['a', 'l', 's', 'e'] rest with
        | none => none
        | some r => some (.bool false, r)
      else if c = 'n' then
        match stripLit ['u', 'l', 'l'] rest with
        | none => none
        | some r => some (.null, r)
      else parseNum (c :: rest)

/-- Parse the members of a JSON object after its opening brace (at least one
member), fuel-bounded.  Duplicate keys overwrite in place, as in Python. -/
def parseMembers : Nat → List Char → List (String × Json) →
    Option (Json × List Char)
  | 0, _, _ => none
  | fuel+1, cs, acc =>
    match skipWs cs with
    | '"' :: rest =>
      match parseStrBody rest with
      | none => none
      | some (k, r1) =>
        match skipWs r1 with
        | ':' :: r2 =>
          match parseVal fuel r2 with
          | none => none
          | some (v, r3) =>
            match skipWs r3 with
            | ',' :: r4 => parseMembers fuel r4 (objInsert acc (String.mk k) v)
            | '\x7d' :: r4 => some (.obj (objInsert acc (String.mk k) v), r4)
            | _ => none
        | _ => none
    | _ => none

/-- Parse the items of a JSON array after its opening bracket (at least one
item), fuel-bounded. -/
def parseItems : Nat → List Char → List Json → Option (Json × List Char)
  | 0, _, _ => none
  | fuel+1, cs, acc =>
    match parseVal fuel cs with
    | none => none
    | some (v, r) =>
      match skipWs r with
      | ',' :: r2 => parseItems fuel r2 (acc ++ [v])
      | ']' :: r2 => some (.arr (acc ++ [v]), r2)
      | _ => none

end

/-- Model of `json.loads`: parse one JSON value and require only whitespace to
remain.  The fuel `2 * length + 2` dominates the length of any chain of
recursive calls, since along any call path at least one input character is
consumed per two calls. -/
def jsonParse (s : String) : Option Json :=
  match parseVal (2 * s.length + 2) s.data with
  | none => none
  | some (j, rest) => if skipWs rest = [] then some j else none

/-- Whether a JSON number lexeme denotes zero: every digit of its mantissa
(the part before any exponent) is `0`. -/
def numIsZero (raw : String) : Bool :=
  ((raw.data.takeWhile (fun c => c != 'e' && c != 'E')).filter Char.isDigit).all
    (fun c => c == '0')

/-- Python truthiness of a value obtained from `json.loads`: `None`, `False`,
numeric zero, and empty strings/lists/dicts are falsy. -/
def jsonTruthy : Json → Bool
  | .null => false
  | .bool b => b
  | .num raw => !(numIsZero raw)
  | .str s => !(s == "")
  | .arr xs => !xs.isEmpty
  | .obj fs => !fs.isEmpty

/-- Python truthiness of an optional JSON value (`None` is falsy). -/
def optTruthy : Option Json → Bool
  | none => false
  | some j => jsonTruthy j

/-- Characters of the fixed literal part of the pattern `Processed ([^:]+):`. -/
def processedPat : List Char :=
  ['P', 'r', 'o', 'c', 'e', 's', 's', 'e', 'd', ' ']

/-- Attempt of the regex `Processed ([^:]+):` at one position: the literal must
match, then the greedy `[^:]+` group is the maximal run of non-colon
characters, which must be non-empty and followed by a colon. -/
def matchProcessedAt (cs : List Char) : Option (List Char) :=
  if cs.take 10 = processedPat then
    let rest := cs.drop 10
    let grp := rest.takeWhile (fun c => c != ':')
    if grp.isEmpty then none
    else if grp.length < rest.length then some grp
    else none
  else none

/-- Leftmost search of the regex `Processed ([^:]+):` (Python `re.search`):
try each start position from the left, returning the first group match. -/
def searchProcessed : List Char → Option (List Char)
  | [] => none
  | c :: cs =>
    match matchProcessedAt (c :: cs) with
    | some g => some g
    | none => searchProcessed cs

/-- File-path extraction from one `processed_files` entry (`main.py` lines
82-85): `m = re.search(r"Processed ([^:]+):", entry)`, keeping `m.group(1)`
when the search succeeds. -/
def extractFile (entry : String) : Option String :=
  (searchProcessed entry.data).map String.mk

/-- Observable outcome of one external process execution
(`subprocess.run(..., capture_output=True, text=True)`). -/
structure ProcResult where
  returncode : Int
  stdout : String
  stderr : String

/-- Evaluation of `report.get("artifacts", {}).get("processed_files", [])`
(`main.py` line 78).  `none` models an `AttributeError` (a `.get` on a
non-dict value), which the surrounding `except` turns into a failure. -/
def getProcessed (report : Json) : Option Json :=
  match report with
  | .obj fs =>
    match objLookup fs "artifacts" with
    | none => some (.arr [])
    | some (.obj afs) => some ((objLookup afs "processed_files").getD (.arr []))
    | some _ => none
  | _ => none

/-- Python iteration over the `processed` value (`for entry in processed`):
lists yield their items, strings their characters, dicts their keys; other
values raise `TypeError` (modelled as `none`). -/
def iterEntries : Json → Option (List Json)
  | .arr xs => some xs
  | .str s => some (s.data.map (fun c => .str (String.mk [c])))
  | .obj fs => some (fs.map (fun kv => .str kv.1))
  | _ => none

/-- Requirement of `re.search` that its subject is a string: a non-string
entry raises `TypeError` (modelled as `none`). -/
def entryAsStr : Json → Option String
  | .str s => some s
  | _ => none

/-- Conversion of every entry to a string, failing at the first non-string
entry (the Python loop raises there and the partial `files` list is
discarded by the surrounding `except`). -/
def entriesAsStrs : List Json → Option (List String)
  | [] => some []
  | e :: es =>
    match entryAsStr e with
    | none => none
    | some s =>
      match entriesAsStrs es with
      | none => none
      | some ss => some (s :: ss)

/-- Extraction of the downloaded file list from a parsed downloader report
(`main.py` lines 78-85); `none` models any exception caught at line 88. -/
def extractFiles (report : Json) : Option (List String) :=
  match getProcessed report with
  | none => none
  | some processed =>
    match iterEntries processed with
    | none => none
    | some entries =>
      match entriesAsStrs entries with
      | none => none
      | some strs => some (strs.filterMap extractFile)

/-- Downloader adapter `download_statements` (`main.py` lines 48-93), as a
function of the observable outcome of its one external process execution.
Returns `(file list, parsed report)` on success and `(none, none)` on any
failure (non-zero exit, unparseable standard output, or an exception while
extracting the file list). -/
def download_statements (run : ProcResult) : Option (List String) × Option Json :=
  if run.returncode ≠ 0 then (none, none)
  else
    match jsonParse run.stdout with
    | none => (none, none)
    | some report =>
      match extractFiles report with
      | none => (none, none)
      | some files => (some files, some report)

/-- Observable environment of one importer adapter call: the user's home
directory, the temporary report-file path produced by
`tempfile.NamedTemporaryFile`, the outcome of the external process execution,
and the content of the temporary report file after that execution (`none`
models an absent file, whose `open` raises). -/
structure ImporterWorld where
  homeDir : String
  reportPath : String
  run : ProcResult
  reportFileContent : Option String

/-- Expansion of `~/Projects/SpojeNetIT/pohoda-abo-importer/src/importer.php`
(`main.py` line 109). -/
def phpImporterPath (w : ImporterWorld) : String :=
  w.homeDir ++ "/Projects/SpojeNetIT/pohoda-abo-importer/src/importer.php"

/-- Command line built for the external importer (`main.py` lines 114-117):
`["php", importer, "-o", report_path] + statement_file`.  The accounting URL
and token parameters are accepted by the adapter but do not occur in the
command. -/
def importer_cmd (w : ImporterWorld) (statement_file : List String)
    (pohoda_url pohoda_token : String) : List String :=
  ["php", phpImporterPath w, "-o", w.reportPath] ++ statement_file

/-- Importer adapter `import_statement_to_pohoda` (`main.py` lines 96-135), as
a function of the observable outcome of its one external process execution and
of the temporary report file's content afterwards.  Returns
`(parsed report, report path)` on success and `(none, none)` on any failure
(non-zero exit, missing report file, or unparseable report file). -/
def import_statement_to_pohoda (w : ImporterWorld) (statement_file : List String)
    (pohoda_url pohoda_token : String) : Option Json × Option String :=
  if w.run.returncode ≠ 0 then (none, none)
  else
    match w.reportFileContent with
    | none => (none, none)
    | some content =>
      match jsonParse content with
      | none => (none, none)
      | some rep => (some rep, some w.reportPath)

/-- Whitespace stripped by Python `str.strip()` for ASCII input. -/
def isPySpace (c : Char) : Bool :=
  c == ' ' || c == '\t' || c == '\n' || c == '\r' || c == '\x0b' || c == '\x0c'

/-- Python `str.strip()` on a character list: drop whitespace from both ends. -/
def pyStripList (cs : List Char) : List Char :=
  ((cs.dropWhile isPySpace).reverse.dropWhile isPySpace).reverse

/-- String-valued dictionary insertion, with Python `dict` semantics
(overwrite in place, otherwise append). -/
def dictInsert (d : List (String × String)) (k v : String) :
    List (String × String) :=
  if d.any (fun kv => kv.1 == k) then
    d.map (fun kv => if kv.1 == k then (kv.1, v) else kv)
  else d ++ [(k, v)]

/-- Processing of one line of the environment file (`main.py` lines 38-44):
strip the line; skip it if empty or starting with `#`; if it contains `=`,
split at the first `=` and insert the stripped key and value. -/
def envStep (env_vars : List (String × String)) (rawLine : String) :
    List (String × String) :=
  if pyStripList rawLine.data = [] then env_vars
  else if (pyStripList rawLine.data).head? = some '#' then env_vars
  else if (pyStripList rawLine.data).contains '=' then
    dictInsert env_vars
      (String.mk (pyStripList ((pyStripList rawLine.data).takeWhile (fun c => c != '='))))
      (String.mk (pyStripList (((pyStripList rawLine.data).dropWhile (fun c => c != '=')).drop 1)))
  else env_vars

/-- Environment loader `load_env_file` (`main.py` lines 24-45), as a function
of the file's existence and lines (`none` models a non-existent file). -/
def load_env_file : Option (List String) → List (String × String)
  | none => []
  | some lines => lines.foldl envStep []

/-- Whether a line of the environment file contributes an entry: non-blank
after stripping, first non-whitespace character not `#`, and containing `=`. -/
def envLineQualifies (rawLine : String) : Bool :=
  !(pyStripList rawLine.data).isEmpty &&
    !((pyStripList rawLine.data).head? == some '#') &&
    (pyStripList rawLine.data).contains '='

/-- The (key, value) entry contributed by a qualifying line: split the
stripped line at the first `=` and strip both parts. -/
def envLineEntry (rawLine : String) : String × String :=
  (String.mk (pyStripList ((pyStripList rawLine.data).takeWhile (fun c => c != '='))),
   String.mk (pyStripList (((pyStripList rawLine.data).dropWhile (fun c => c != '=')).drop 1)))

/-- Entry list named by the claim about the environment loader: one (key,
value) pair per qualifying line, in file order. -/
def envSpecEntries (lines : List String) : List (String × String) :=
  (lines.filter envLineQualifies).map envLineEntry

/-- Reference mapping for the amended claim about the environment loader: the
per-line entries combined left to right with dictionary insertion, so each
distinct key keeps the value of its last qualifying line. -/
def envSpecMap (lines : List String) : List (String × String) :=
  (envSpecEntries lines).foldl (fun d kv => dictInsert d kv.1 kv.2) []

/-- Python truthiness of the orchestrator's `statement_files` value
(`if not statement_files:` at `main.py` line 160): falsy when `None` or the
empty list. -/
def filesTruthy : Option (List String) → Bool
  | none => false
  | some [] => false
  | some (_ :: _) => true

/-- Mutation `report["artifacts"][k] = v` on a report whose `artifacts` value
is an object (as it always is in `main`). -/
def setArtifact (r : List (String × Json)) (k : String) (v : Json) :
    List (String × Json) :=
  match objLookup r "artifacts" with
  | some (.obj afs) => objInsert r "artifacts" (.obj (objInsert afs k v))
  | _ => r

/-- Initial report skeleton built at `main.py` lines 155-159, with the
`datetime.now().isoformat()` timestamp supplied as a parameter. -/
def initialReport (ts : String) : List (String × Json) :=
  [("timestamp", .str ts), ("artifacts", .obj []), ("metrics", .obj [])]

/-- Report printed on the download-failure branch (`main.py` lines 160-165):
status and message set on the skeleton, with the top-level
`downloader_report` key added when the downloader report is truthy. -/
def dlFailReport (ts : String) (downloader_report : Option Json) :
    List (String × Json) :=
  let r1 := objInsert (objInsert (initialReport ts) "status" (.str "error"))
    "message" (.str "Failed to download statement(s).")
  match downloader_report with
  | some d => if jsonTruthy d then objInsert r1 "downloader_report" d else r1
  | none => r1

/-- Lines 168-182 of `main.py`: the part of `main` after a truthy file list,
as a function of the importer adapter's result.  The value is the final
printed report together with the process exit code; `none` models the
uncaught `AttributeError` raised at line 177 when a truthy importer report is
not a JSON object. -/
def mainImportPhase (ts : String) (files : List String)
    (downloader_report : Option Json)
    (importer_result : Option Json × Option String) : Option (Json × Nat) :=
  let report1 := setArtifact (initialReport ts) "imported_statement"
    (.arr (files.map Json.str))
  let importer_report := importer_result.1
  if optTruthy importer_report = false then
    let r1 := objInsert (objInsert report1 "status" (.str "error"))
      "message" (.str "Failed to import statement(s) to Pohoda.")
    let r2 :=
      match downloader_report with
      | some d => if jsonTruthy d then objInsert r1 "downloader_report" d else r1
      | none => r1
    some (.obj r2, 2)
  else
    match importer_report with
    | some (.obj irf) =>
      let status := (objLookup irf "status").getD (.str "success")
      let message := (objLookup irf "message").getD
        (.str "Statement(s) successfully imported to Pohoda.")
      let r1 := objInsert (objInsert report1 "status" status) "message" message
      let r2 := setArtifact r1 "importer_report" (.obj irf)
      let r3 :=
        match downloader_report with
        | some d => if jsonTruthy d then setArtifact r2 "downloader_report" d else r2
        | none => r2
      some (.obj r3, 0)
    | _ => none

/-- Orchestrator `main` (`main.py` lines 153-182) after argument parsing, as a
function of the timestamp, the downloader adapter's result, and the importer
adapter (invoked on the downloaded file list exactly when that list is
truthy). -/
def mainLogic (ts : String) (statement_files : Option (List String))
    (downloader_report : Option Json)
    (imp : List String → Option Json × Option String) : Option (Json × Nat) :=
  if filesTruthy statement_files = false then
    some (.obj (dlFailReport ts downloader_report), 1)
  else
    mainImportPhase ts (statement_files.getD []) downloader_report
      (imp (statement_files.getD []))

mutual

/-- Whether a key occurs anywhere in a JSON value, at any nesting depth. -/
def jsonHasKey : Json → String → Bool
  | .obj fs, k => fieldsHasKey fs k
  | .arr xs, k => itemsHasKey xs k
  | _, _ => false

/-- Whether a key occurs in a field list or anywhere below it. -/
def fieldsHasKey : List (String × Json) → String → Bool
  | [], _ => false
  | (k2, v) :: rest, k => k2 == k || jsonHasKey v k || fieldsHasKey rest k

/-- Whether a key occurs anywhere in a list of JSON values. -/
def itemsHasKey : List Json → String → Bool
  | [], _ => false
  | v :: rest, k => jsonHasKey v k || itemsHasKey rest k

end

/-- Auxiliary: converting a list of JSON strings back to strings succeeds and
is the identity. -/
theorem entriesAsStrs_map_str (xs : List String) :
    entriesAsStrs (xs.map Json.str) = some xs := by
  induction xs with
  | nil => rfl
  | cons x xs ih => simp [entriesAsStrs, entryAsStr, ih]

/-- Auxiliary: on a qualifying line, one step of the environment loader is a
dictionary insertion of that line's entry. -/
theorem envStep_of_qualifies (l : String) (acc : List (String × String))
    (h : envLineQualifies l = true) :
    envStep acc l = dictInsert acc (envLineEntry l).1 (envLineEntry l).2 := by
  unfold envLineQualifies at h
  simp only [Bool.and_eq_true, Bool.not_eq_true'] at h
  obtain ⟨⟨h1, h2⟩, h3⟩ := h
  have h1' : pyStripList l.data ≠ [] := by
    intro hc
    rw [hc] at h1
    simp at h1
  have h2' : (pyStripList l.data).head? ≠ some '#' := by
    intro hc
    rw [hc] at h2
    simp at h2
  unfold envStep envLineEntry
  rw [if_neg h1', if_neg h2', if_pos h3]

/-- Auxiliary: on a non-qualifying line, one step of the environment loader
leaves the mapping unchanged. -/
theorem envStep_not_qualifies (l : String) (acc : List (String × String))
    (h : envLineQualifies l = false) :
    envStep acc l = acc := by
  unfold envLineQualifies at h
  unfold envStep
  split_ifs with h1 h2 h3
  · rfl
  · rfl
  · exfalso
    rw [Bool.and_eq_false_iff, Bool.and_eq_false_iff] at h
    rcases h with (ha | hb) | hc
    · rw [Bool.not_eq_false'] at ha
      rw [List.isEmpty_iff] at ha
      exact h1 ha
    · rw [Bool.not_eq_false', beq_iff_eq] at hb
      exact h2 hb
    · rw [h3] at hc
      exact Bool.noConfusion hc
  · rfl

/-- Auxiliary: the environment loader's fold equals the fold of the per-line
entries of the qualifying lines. -/
theorem load_env_foldl (lines : List String) (acc : List (String × String)) :
    lines.foldl envStep acc =
      ((lines.filter envLineQualifies).map envLineEntry).foldl
        (fun d kv => dictInsert d kv.1 kv.2) acc := by
  induction lines generalizing acc with
  | nil => rfl
  | cons l ls ih =>
    cases h : envLineQualifies l with
    | true =>
      rw [List.foldl_cons, envStep_of_qualifies l acc h, List.filter_cons_of_pos h,
        List.map_cons, List.foldl_cons, ih]
    | false =>
      rw [List.foldl_cons, envStep_not_qualifies l acc h, ih, List.filter_cons_of_neg]
      simp [h]

/-- Claim C1: when the downloader adapter returns a non-empty file list and
the importer adapter returns the report with status `success` and message
`done`, the final report has status `success`, message `done`,
`artifacts.imported_statement` equal to the downloaded file list,
`artifacts.importer_report` equal to the importer's report, and the process
exits with code 0. -/
theorem C1_end_to_end_success (ts f : String) (fs : List String)
    (dlRep : Option Json) (imp : List String → Option Json × Option String)
    (p : Option String)
    (himp : imp (f :: fs) =
      (some (.obj [("status", .str "success"), ("message", .str "done")]), p)) :
    ∃ r, mainLogic ts (some (f :: fs)) dlRep imp = some (.obj r, 0) ∧
      objLookup r "status" = some (.str "success") ∧
      objLookup r "message" = some (.str "done") ∧
      ∃ afs, objLookup r "artifacts" = some (.obj afs) ∧
        objLookup afs "imported_statement" = some (.arr ((f :: fs).map Json.str)) ∧
        objLookup afs "importer_report" =
          some (.obj [("status", .str "success"), ("message", .str "done")]) := by
  have h1 : mainLogic ts (some (f :: fs)) dlRep imp =
      mainImportPhase ts (f :: fs) dlRep (imp (f :: fs)) := rfl
  rw [h1, himp]
  rcases dlRep with _ | d
  · exact ⟨_, rfl, rfl, rfl, _, rfl, rfl, rfl⟩
  · cases hd : jsonTruthy d with
    | false =>
      simp only [mainImportPhase, hd]
      exact ⟨_, rfl, rfl, rfl, _, rfl, rfl, rfl⟩
    | true =>
      simp only [mainImportPhase, hd]
      exact ⟨_, rfl, rfl, rfl, _, rfl, rfl, rfl⟩

/-- Witness for C1 at a concrete run: one downloaded file, no downloader
report, importer report with status `success` and message `done`. -/
theorem C1_end_to_end_success_witness :
    ∃ r, mainLogic "t" (some ["/tmp/a.abo"]) none
        (fun _ => (some (.obj [("status", .str "success"), ("message", .str "done")]),
          some "/tmp/rep.json")) = some (.obj r, 0) ∧
      objLookup r "status" = some (.str "success") ∧
      objLookup r "message" = some (.str "done") ∧
      ∃ afs, objLookup r "artifacts" = some (.obj afs) ∧
        objLookup afs "imported_statement" =
          some (.arr (["/tmp/a.abo"].map Json.str)) ∧
        objLookup afs "importer_report" =
          some (.obj [("status", .str "success"), ("message", .str "done")]) :=
  C1_end_to_end_success "t" "/tmp/a.abo" [] none
    (fun _ => (some (.obj [("status", .str "success"), ("message", .str "done")]),
      some "/tmp/rep.json")) (some "/tmp/rep.json") rfl

/-- Counterexample to claim C2 as stated: with a non-empty file list, a parsed
(truthy) downloader report, and an importer failure, the final report does
have status `error`, the import-failure message and exit code 2, but the
downloader report is stored under the TOP-LEVEL key `downloader_report`, not
under `artifacts.downloader_report`: the `artifacts` object holds only
`imported_statement`. -/
theorem C2_import_failure_counterexample :
    mainLogic "t" (some ["f"]) (some (.obj [("k", .str "v")]))
        (fun _ => (none, none)) =
      some (.obj [("timestamp", .str "t"),
        ("artifacts", .obj [("imported_statement", .arr [.str "f"])]),
        ("metrics", .obj []),
        ("status", .str "error"),
        ("message", .str "Failed to import statement(s) to Pohoda."),
        ("downloader_report", .obj [("k", .str "v")])], 2) ∧
    objLookup [("imported_statement", .arr [.str "f"])] "downloader_report" =
      none :=
  ⟨rfl, rfl⟩

/-- Claim C2, amended: with a non-empty file list, a truthy parsed downloader
report, and an importer failure signal, the final report has status `error`,
the import-failure message, the downloader report under the top-level key
`downloader_report` (absent from `artifacts`), and exit code 2. -/
theorem C2_import_failure_amended (ts f : String) (fs : List String) (d : Json)
    (imp : List String → Option Json × Option String) (ip : Option String)
    (himp : imp (f :: fs) = (none, ip))
    (htr : jsonTruthy d = true) :
    ∃ r, mainLogic ts (some (f :: fs)) (some d) imp = some (.obj r, 2) ∧
      objLookup r "status" = some (.str "error") ∧
      objLookup r "message" =
        some (.str "Failed to import statement(s) to Pohoda.") ∧
      objLookup r "downloader_report" = some d ∧
      ∀ afs, objLookup r "artifacts" = some (.obj afs) →
        objLookup afs "downloader_report" = none := by
  have h1 : mainLogic ts (some (f :: fs)) (some d) imp =
      mainImportPhase ts (f :: fs) (some d) (imp (f :: fs)) := rfl
  rw [h1, himp]
  simp only [mainImportPhase, htr]
  refine ⟨_, rfl, rfl, rfl, rfl, ?_⟩
  intro afs hafs
  have h2 : afs = [("imported_statement", Json.arr ((f :: fs).map Json.str))] := by
    cases hafs
    rfl
  rw [h2]
  rfl

/-- Witness for the amended C2 at a concrete run: one file, truthy downloader
report, importer failure. -/
theorem C2_import_failure_amended_witness :
    ∃ r, mainLogic "t" (some ["f"]) (some (.obj [("k", .str "v")]))
        (fun _ => (none, none)) = some (.obj r, 2) ∧
      objLookup r "status" = some (.str "error") ∧
      objLookup r "message" =
        some (.str "Failed to import statement(s) to Pohoda.") ∧
      objLookup r "downloader_report" = some (.obj [("k", .str "v")]) ∧
      ∀ afs, objLookup r "artifacts" = some (.obj afs) →
        objLookup afs "downloader_report" = none :=
  C2_import_failure_amended "t" "f" [] (.obj [("k", .str "v")])
    (fun _ => (none, none)) none rfl rfl

/-- Claim C3: when the downloader adapter returns a failure signal (no file
list, no report), the final report has status `error`, the fixed
download-failure message, no `importer_report` key anywhere in it, and exit
code 1; the result does not depend on the importer adapter, which is never
invoked on this branch. -/
theorem C3_download_failure (ts : String)
    (imp imp2 : List String → Option Json × Option String) :
    mainLogic ts none none imp = some (.obj (dlFailReport ts none), 1) ∧
    objLookup (dlFailReport ts none) "status" = some (.str "error") ∧
    objLookup (dlFailReport ts none) "message" =
      some (.str "Failed to download statement(s).") ∧
    jsonHasKey (.obj (dlFailReport ts none)) "importer_report" = false ∧
    mainLogic ts none none imp = mainLogic ts none none imp2 :=
  ⟨rfl, rfl, rfl, rfl, rfl⟩

/-- Counterexample to claim C4 as stated: `"5"` parses as JSON (to the number
5), yet with exit status zero the downloader adapter returns the failure
signal `(none, none)` rather than a file list with the parsed report, because
`report.get("artifacts", ...)` raises on a non-dict report. -/
theorem C4_json_success_counterexample :
    jsonParse "5" = some (.num "5") ∧
    download_statements ⟨0, "5", ""⟩ = (none, none) :=
  ⟨rfl, rfl⟩

/-- Claim C4, amended: for every zero-exit downloader run whose standard
output parses as a JSON object whose `artifacts` member is an object whose
`processed_files` member is an array of strings, the adapter returns the list
of file paths extracted from those entries (possibly empty) together with the
full parsed report. -/
theorem C4_json_success_amended (run : ProcResult) (fs afs : List (String × Json))
    (xs : List String)
    (h0 : run.returncode = 0)
    (hp : jsonParse run.stdout = some (.obj fs))
    (ha : objLookup fs "artifacts" = some (.obj afs))
    (hpf : objLookup afs "processed_files" = some (.arr (xs.map Json.str))) :
    download_statements run = (some (xs.filterMap extractFile), some (.obj fs)) := by
  have he : extractFiles (.obj fs) = some (xs.filterMap extractFile) := by
    unfold extractFiles getProcessed
    simp [ha, hpf, iterEntries, entriesAsStrs_map_str]
  unfold download_statements
  rw [h0, hp]
  simp [he]

/-- Witness for the amended C4 at a concrete run with one processed-files
entry. -/
theorem C4_json_success_amended_witness :
    download_statements
      ⟨0, "\x7b\"artifacts\":\x7b\"processed_files\":[\"Processed /tmp/a.abo: ok\"]\x7d\x7d",
        ""⟩ =
      (some ["/tmp/a.abo"],
       some (.obj [("artifacts", .obj [("processed_files",
         .arr [.str "Processed /tmp/a.abo: ok"])])])) :=
  C4_json_success_amended _ _ _ ["Processed /tmp/a.abo: ok"] rfl rfl rfl rfl

/-- Claim C5: on a zero-exit downloader run with standard output exactly the
object whose `artifacts.processed_files` is `["Processed /tmp/a.abo: ok"]`,
the adapter returns the file list `["/tmp/a.abo"]` together with the parsed
report. -/
theorem C5_extraction_example :
    download_statements
      ⟨0, "\x7b\"artifacts\":\x7b\"processed_files\":[\"Processed /tmp/a.abo: ok\"]\x7d\x7d",
        ""⟩ =
      (some ["/tmp/a.abo"],
       some (.obj [("artifacts", .obj [("processed_files",
         .arr [.str "Processed /tmp/a.abo: ok"])])])) :=
  rfl

/-- Claim C6: for every downloader process run with non-zero exit status, the
downloader adapter returns the failure signal with no file list and no
report, whatever the standard output holds. -/
theorem C6_nonzero_exit (run : ProcResult) (h : run.returncode ≠ 0) :
    download_statements run = (none, none) := by
  unfold download_statements
  simp [h]

/-- Witness for C6 at a concrete failing run. -/
theorem C6_nonzero_exit_witness :
    download_statements ⟨1, "\x7b\"artifacts\":\x7b\x7d\x7d", "boom"⟩ =
      (none, none) :=
  C6_nonzero_exit ⟨1, "\x7b\"artifacts\":\x7b\x7d\x7d", "boom"⟩ (by decide)

/-- Claim C7: for every zero-exit importer run, the adapter fails with no
report when the temporary report file is absent, fails when its content does
not parse as JSON, and otherwise returns the parsed report together with the
temporary file's path. -/
theorem C7_importer_report_file (w : ImporterWorld) (sf : List String)
    (url tok : String) (h0 : w.run.returncode = 0) :
    (w.reportFileContent = none →
      import_statement_to_pohoda w sf url tok = (none, none)) ∧
    (∀ c, w.reportFileContent = some c → jsonParse c = none →
      import_statement_to_pohoda w sf url tok = (none, none)) ∧
    (∀ c rep, w.reportFileContent = some c → jsonParse c = some rep →
      import_statement_to_pohoda w sf url tok = (some rep, some w.reportPath)) := by
  unfold import_statement_to_pohoda
  rw [h0]
  refine ⟨fun h => by rw [h]; simp, fun c h hp => by rw [h]; simp [hp],
    fun c rep h hp => by rw [h]; simp [hp]⟩

/-- Witness for C7 at a concrete zero-exit run whose report file is absent. -/
theorem C7_importer_report_file_witness :
    import_statement_to_pohoda ⟨"/home/u", "/tmp/rep.json", ⟨0, "", ""⟩, none⟩
      ["a.abo"] "http://pohoda" "token" = (none, none) :=
  (C7_importer_report_file ⟨"/home/u", "/tmp/rep.json", ⟨0, "", ""⟩, none⟩
    ["a.abo"] "http://pohoda" "token" rfl).1 rfl

/-- Counterexample to claim C8 as stated: the file with lines `A=1` and `A=2`
has two qualifying lines, but the loader's mapping holds a single entry
`("A", "2")`; in particular the entry `("A", "1")` of the qualifying line
`A=1` is not in the mapping, so the mapping does not contain one entry per
qualifying line. -/
theorem C8_env_loader_counterexample :
    envLineQualifies "A=1" = true ∧
    envLineEntry "A=1" = ("A", "1") ∧
    envSpecEntries ["A=1", "A=2"] = [("A", "1"), ("A", "2")] ∧
    load_env_file (some ["A=1", "A=2"]) = [("A", "2")] ∧
    ("A", "1") ∉ load_env_file (some ["A=1", "A=2"]) :=
  ⟨rfl, rfl, rfl, rfl, by decide⟩

/-- Claim C8, amended: for a missing file the loader returns the empty
mapping, and for an existing file it returns exactly the dictionary obtained
by inserting, in file order, one (key, value) entry per non-blank,
non-comment line containing `=` (split at the first `=`, both parts
trimmed), with a later line overriding the value of an equal key. -/
theorem C8_env_loader_amended :
    load_env_file none = [] ∧
    ∀ lines, load_env_file (some lines) = envSpecMap lines := by
  refine ⟨rfl, fun lines => ?_⟩
  unfold load_env_file envSpecMap envSpecEntries
  exact load_env_foldl lines []

/-- Claim C9: the importer adapter's constructed command line and returned
result are identical across any two choices of the accounting URL and token
arguments; the credential parameters have no observable effect. -/
theorem C9_credentials_noninterference (w : ImporterWorld) (sf : List String)
    (u1 t1 u2 t2 : String) :
    importer_cmd w sf u1 t1 = importer_cmd w sf u2 t2 ∧
    import_statement_to_pohoda w sf u1 t1 = import_statement_to_pohoda w sf u2 t2 :=
  ⟨rfl, rfl⟩

/-- Claim C10: a zero-exit downloader run with a valid JSON report whose file
extraction yields the empty list makes the adapter return `(some [], report)`,
and the orchestrator treats that exactly like a download failure: the same
falsy branch condition, a report with status `error` and the download-failure
message, exit code 1, and no dependence on the importer adapter. -/
theorem C10_empty_list_like_failure (run : ProcResult) (report : Json)
    (ts : String) (imp imp2 : List String → Option Json × Option String)
    (h0 : run.returncode = 0)
    (hp : jsonParse run.stdout = some report)
    (he : extractFiles report = some []) :
    download_statements run = (some [], some report) ∧
    filesTruthy (some []) = filesTruthy none ∧
    mainLogic ts (some []) (some report) imp =
      some (.obj (dlFailReport ts (some report)), 1) ∧
    objLookup (dlFailReport ts (some report)) "status" = some (.str "error") ∧
    objLookup (dlFailReport ts (some report)) "message" =
      some (.str "Failed to download statement(s).") ∧
    mainLogic ts (some []) (some report) imp =
      mainLogic ts (some []) (some report) imp2 := by
  refine ⟨?_, rfl, rfl, ?_, ?_, rfl⟩
  · unfold download_statements
    rw [h0, hp]
    simp [he]
  · cases htr : jsonTruthy report with
    | false => simp [dlFailReport, htr, initialReport, objInsert, objLookup]
    | true => simp [dlFailReport, htr, initialReport, objInsert, objLookup]
  · cases htr : jsonTruthy report with
    | false => simp [dlFailReport, htr, initialReport, objInsert, objLookup]
    | true => simp [dlFailReport, htr, initialReport, objInsert, objLookup]

/-- Witness for C10 at a concrete zero-exit run whose report is the empty
object, so the extracted file list is empty. -/
theorem C10_empty_list_like_failure_witness :
    download_statements ⟨0, "\x7b\x7d", ""⟩ = (some [], some (.obj [])) ∧
    filesTruthy (some []) = filesTruthy none ∧
    mainLogic "t" (some []) (some (.obj [])) (fun _ => (none, none)) =
      some (.obj (dlFailReport "t" (some (.obj []))), 1) ∧
    objLookup (dlFailReport "t" (some (.obj []))) "status" =
      some (.str "error") ∧
    objLookup (dlFailReport "t" (some (.obj []))) "message" =
      some (.str "Failed to download statement(s).") ∧
    mainLogic "t" (some []) (some (.obj [])) (fun _ => (none, none)) =
      mainLogic "t" (some []) (some (.obj [])) (fun _ => (some .null, none)) :=
  C10_empty_list_like_failure ⟨0, "\x7b\x7d", ""⟩ (.obj []) "t"
    (fun _ => (none, none)) (fun _ => (some .null, none)) rfl rfl rfl
